import Mathlib

/-!
Verification of the Synapse core daemon (wildhash/Synapase).

The definitions below are a shallow embedding of the TypeScript sources:

* `SynapseMachine` and its `send` method, from
  `apps/synapse-core-daemon/src/stateMachine.ts`;
* the kernel mixer helpers (`selectModel`, `dialDeltaToComputeWeight`,
  `dialDeltaToContextTokens`, `MockKernelMixer`) from
  `packages/symbios-connector/src/index.ts`;
* the UI executor bridge (`MockUiExecutorBridge`) from
  `packages/ui-executor-bridge/src/index.ts`;
* the voice pipeline mock from `packages/voice-pipeline/src/index.ts`;
* the hardware event mapping from `packages/hardware-events/src/index.ts`;
* the daemon event processor, websocket connect/message/close handlers and
  `broadcast` from `apps/synapse-core-daemon/src/index.ts`.

JavaScript numbers are modelled as rationals (`ℚ`); the daemon's mutable
singletons are modelled by explicit state passing.  An `await`ed adapter
call that may reject is modelled by a fault flag: when the flag is set the
surrounding function stops at that call site with `failed = true`, exactly
as a rejected promise aborts the rest of the `async` function body.
-/

/-- Agent persona, from `AgentPersonaSchema` (`CODER | NAVIGATOR | RESEARCHER`). -/
inductive AgentPersona
  | CODER
  | NAVIGATOR
  | RESEARCHER
deriving DecidableEq, Repr

/-- State values of the Synapse machine (`SynapseStateValue`). -/
inductive SynapseStateValue
  | IDLE
  | CLUTCH_ENGAGED
  | VOICE_ACTIVE
  | AGENT_EXECUTING
deriving DecidableEq, Repr

/-- Voice pipeline status as stored in `SynapseState`
(`IDLE | LISTENING | PROCESSING`). -/
inductive VoicePipelineStatus
  | IDLE
  | LISTENING
  | PROCESSING
deriving DecidableEq, Repr

/-- The machine's data record (`SynapseState` in `hardware-events`). -/
structure SynapseState where
  isClutchEngaged : Bool
  activeAgentContext : AgentPersona
  computeMixWeight : ℚ
  voicePipelineStatus : VoicePipelineStatus
deriving DecidableEq, Repr

/-- `SynapseMachineEvent`, the machine's tagged event union. -/
inductive SynapseMachineEvent
  | CLUTCH_ENGAGE (persona : Option AgentPersona)
  | CLUTCH_RELEASE
  | VOICE_READY
  | AGENT_READY
  | DIAL_COMPUTE (delta : ℚ)
  | DIAL_CONTEXT (delta : ℚ)
  | KEYPAD_SWITCH (persona : AgentPersona)
deriving DecidableEq, Repr

/-- The `SynapseMachine` class: current state value plus data record. -/
structure SynapseMachine where
  stateValue : SynapseStateValue
  data : SynapseState
deriving DecidableEq, Repr

/-- Initial machine: `stateValue = 'IDLE'`, data as in the class field
initializers (`isClutchEngaged: false, activeAgentContext: 'CODER',
computeMixWeight: 0.5, voicePipelineStatus: 'IDLE'`). -/
def SynapseMachine.initial : SynapseMachine :=
  { stateValue := .IDLE
    data :=
      { isClutchEngaged := false
        activeAgentContext := .CODER
        computeMixWeight := 1/2
        voicePipelineStatus := .IDLE } }

/-- `applyDialCompute`: `newWeight = min(1, max(0, weight + delta * 0.05))`. -/
def SynapseMachine.applyDialCompute (d : SynapseState) (delta : ℚ) : SynapseState :=
  { d with computeMixWeight := min 1 (max 0 (d.computeMixWeight + delta * (5/100))) }

/-- `releaseClutch`: back to `IDLE`, `isClutchEngaged := false`,
`voicePipelineStatus := 'IDLE'`. -/
def SynapseMachine.releaseClutch (m : SynapseMachine) : SynapseMachine :=
  { stateValue := .IDLE
    data := { m.data with isClutchEngaged := false, voicePipelineStatus := .IDLE } }

/-- `handleIdle` from `stateMachine.ts`. -/
def SynapseMachine.handleIdle (m : SynapseMachine) (e : SynapseMachineEvent) : SynapseMachine :=
  match e with
  | .CLUTCH_ENGAGE p =>
      { stateValue := .CLUTCH_ENGAGED
        data :=
          { m.data with
              isClutchEngaged := true
              voicePipelineStatus := .LISTENING
              activeAgentContext := p.getD m.data.activeAgentContext } }
  | .DIAL_COMPUTE delta => { m with data := SynapseMachine.applyDialCompute m.data delta }
  | .DIAL_CONTEXT _ => m
  | .KEYPAD_SWITCH p => { m with data := { m.data with activeAgentContext := p } }
  | _ => m

/-- `handleClutchEngaged` from `stateMachine.ts`. -/
def SynapseMachine.handleClutchEngaged (m : SynapseMachine) (e : SynapseMachineEvent) :
    SynapseMachine :=
  match e with
  | .CLUTCH_RELEASE => m.releaseClutch
  | .VOICE_READY =>
      { stateValue := .VOICE_ACTIVE
        data := { m.data with voicePipelineStatus := .PROCESSING } }
  | .DIAL_COMPUTE delta => { m with data := SynapseMachine.applyDialCompute m.data delta }
  | .KEYPAD_SWITCH p => { m with data := { m.data with activeAgentContext := p } }
  | _ => m

/-- `handleVoiceActive` from `stateMachine.ts`. -/
def SynapseMachine.handleVoiceActive (m : SynapseMachine) (e : SynapseMachineEvent) :
    SynapseMachine :=
  match e with
  | .CLUTCH_RELEASE => m.releaseClutch
  | .AGENT_READY => { m with stateValue := .AGENT_EXECUTING }
  | .DIAL_COMPUTE delta => { m with data := SynapseMachine.applyDialCompute m.data delta }
  | _ => m

/-- `handleAgentExecuting` from `stateMachine.ts`. -/
def SynapseMachine.handleAgentExecuting (m : SynapseMachine) (e : SynapseMachineEvent) :
    SynapseMachine :=
  match e with
  | .CLUTCH_RELEASE => m.releaseClutch
  | .DIAL_COMPUTE delta => { m with data := SynapseMachine.applyDialCompute m.data delta }
  | _ => m

/-- `SynapseMachine.send`, dispatching on the current state value.  The
TypeScript method mutates `this` and returns the new state value; here it
returns the whole updated machine. -/
def SynapseMachine.send (m : SynapseMachine) (e : SynapseMachineEvent) : SynapseMachine :=
  match m.stateValue with
  | .IDLE => m.handleIdle e
  | .CLUTCH_ENGAGED => m.handleClutchEngaged e
  | .VOICE_ACTIVE => m.handleVoiceActive e
  | .AGENT_EXECUTING => m.handleAgentExecuting e

/-- Run a list of events through the machine, one `send` at a time. -/
def SynapseMachine.run (m : SynapseMachine) (es : List SynapseMachineEvent) : SynapseMachine :=
  es.foldl SynapseMachine.send m

/-- The voice status the spec pairs with each phase
(IDLE↔IDLE, CLUTCH_ENGAGED↔LISTENING, VOICE_ACTIVE/AGENT_EXECUTING↔PROCESSING);
used only to state the lockstep invariant. -/
def voiceStatusOfPhase : SynapseStateValue → VoicePipelineStatus
  | .IDLE => .IDLE
  | .CLUTCH_ENGAGED => .LISTENING
  | .VOICE_ACTIVE => .PROCESSING
  | .AGENT_EXECUTING => .PROCESSING

/-- The phase/voice-status/clutch lockstep invariant of a machine state. -/
def MachineInv (m : SynapseMachine) : Prop :=
  m.data.voicePipelineStatus = voiceStatusOfPhase m.stateValue ∧
    (m.data.isClutchEngaged = true ↔ m.stateValue ≠ .IDLE)

instance (m : SynapseMachine) : Decidable (MachineInv m) := by
  unfold MachineInv
  infer_instance

/-- Compute model labels from `ComputeModelSchema` in `symbios-connector`. -/
inductive ComputeModel
  | LOCAL_LLAMA3
  | CLOUD_CLAUDE_3_5_SONNET
  | CLOUD_GPT4O
  | LOCAL_MISTRAL
deriving DecidableEq, Repr

/-- `selectModel`: weight below 0.5 favors local, otherwise cloud. -/
def selectModel (weight : ℚ) : ComputeModel :=
  if weight < 1/2 then .LOCAL_LLAMA3 else .CLOUD_CLAUDE_3_5_SONNET

/-- `dialDeltaToComputeWeight`: each tick is 0.05, clamped to `[0, 1]`. -/
def dialDeltaToComputeWeight (currentWeight delta : ℚ) : ℚ :=
  min 1 (max 0 (currentWeight + delta * (5/100)))

/-- `dialDeltaToContextTokens`: each tick is 6000 tokens, clamped to
`[8000, 128000]`. -/
def dialDeltaToContextTokens (currentTokens delta : ℚ) : ℚ :=
  min 128000 (max 8000 (currentTokens + delta * 6000))

/-- `KernelMixConfig` as held by `MockKernelMixer` (the optional
`fallbackModel` stays `none` throughout the daemon and is omitted). -/
structure KernelMixConfig where
  computeMixWeight : ℚ
  contextWindowTokens : ℚ
  primaryModel : ComputeModel
deriving DecidableEq, Repr

/-- `new MockKernelMixer()` with no argument: the constructor defaults are
`computeMixWeight: 0.5`, `contextWindowTokens: 32000`,
`primaryModel: 'LOCAL_LLAMA3'`. -/
def MockKernelMixer.initial : KernelMixConfig :=
  { computeMixWeight := 1/2
    contextWindowTokens := 32000
    primaryModel := .LOCAL_LLAMA3 }

/-- `MockKernelMixer.setComputeMix`: stores the clamped weight and derives
`primaryModel` with `selectModel` applied to the unclamped argument. -/
def MockKernelMixer.setComputeMix (cfg : KernelMixConfig) (weight : ℚ) : KernelMixConfig :=
  { cfg with
      computeMixWeight := min 1 (max 0 weight)
      primaryModel := selectModel weight }

/-- `MockKernelMixer.setContextWindow`: stores the clamped token count. -/
def MockKernelMixer.setContextWindow (cfg : KernelMixConfig) (tokens : ℚ) : KernelMixConfig :=
  { cfg with contextWindowTokens := min 128000 (max 8000 tokens) }

/-- Clutch event type tag (`'ENGAGE' | 'RELEASE'`). -/
inductive ClutchEventType
  | ENGAGE
  | RELEASE
deriving DecidableEq, Repr

/-- `ClutchEvent` from `ui-executor-bridge`; `ClutchEventSchema` additionally
requires the timestamp to be a positive integer.  Field types are enforced by
the embedding, so schema validation reduces to the timestamp bound. -/
structure ClutchEvent where
  type : ClutchEventType
  timestamp : ℤ
  agentPersona : AgentPersona
deriving DecidableEq, Repr

/-- `ClutchEventSchema.parse` succeeds iff the timestamp is positive. -/
def ClutchEvent.isValid (e : ClutchEvent) : Bool :=
  0 < e.timestamp

/-- Owner of OS input (`'PHYSICAL_MOUSE' | 'JAYU_AGENT'`). -/
inductive OsControlOwner
  | PHYSICAL_MOUSE
  | JAYU_AGENT
deriving DecidableEq, Repr

/-- `OsControlState` from `ui-executor-bridge`. -/
structure OsControlState where
  owner : OsControlOwner
  handedOffAt : Option ℤ
  activePersona : AgentPersona
deriving DecidableEq, Repr

/-- `MockUiExecutorBridge`'s initial private state: owner `PHYSICAL_MOUSE`,
no `handedOffAt`, persona `CODER`. -/
def MockUiExecutorBridge.initial : OsControlState :=
  { owner := .PHYSICAL_MOUSE, handedOffAt := none, activePersona := .CODER }

/-- `MockUiExecutorBridge.engage`: no-op when already agent-owned, otherwise
validates the event and hands control to the agent; a failed schema parse
throws, modelled by `Except.error`. -/
def MockUiExecutorBridge.engage (s : OsControlState) (e : ClutchEvent) :
    Except String OsControlState :=
  if s.owner = .JAYU_AGENT then .ok s
  else if e.isValid then
    .ok { owner := .JAYU_AGENT, handedOffAt := some e.timestamp, activePersona := e.agentPersona }
  else .error "invalid ClutchEvent"

/-- `MockUiExecutorBridge.release`: validates the event, then unconditionally
returns control to the physical mouse and drops `handedOffAt`. -/
def MockUiExecutorBridge.release (s : OsControlState) (e : ClutchEvent) :
    Except String OsControlState :=
  if e.isValid then
    .ok { owner := .PHYSICAL_MOUSE, handedOffAt := none, activePersona := e.agentPersona }
  else .error "invalid ClutchEvent"

/-- `MockUiExecutorBridge.switchPersona` (the persona argument is already a
valid `AgentPersona` by typing, so the schema parse cannot throw). -/
def MockUiExecutorBridge.switchPersona (s : OsControlState) (p : AgentPersona) : OsControlState :=
  { s with activePersona := p }

/-- `KEYPAD_PERSONA_MAP` lookup (`keypadToPersona`): keys 1, 2, 3 map to the
three personas, anything else is unmapped. -/
def keypadToPersona (key : ℚ) : Option AgentPersona :=
  if key = 1 then some .CODER
  else if key = 2 then some .NAVIGATOR
  else if key = 3 then some .RESEARCHER
  else none

/-- `MockVoicePipeline`'s status (`IDLE | LISTENING | PROCESSING | ERROR`). -/
inductive MockVoiceStatus
  | IDLE
  | LISTENING
  | PROCESSING
  | ERROR
deriving DecidableEq, Repr

/-- `MockVoicePipeline.engage`: sets status to `LISTENING` (no-op when
already listening). -/
def MockVoicePipeline.engage (s : MockVoiceStatus) : MockVoiceStatus :=
  if s = .LISTENING then s else .LISTENING

/-- `MockVoicePipeline.release`: sets status to `IDLE` (no-op when idle). -/
def MockVoicePipeline.release (s : MockVoiceStatus) : MockVoiceStatus :=
  if s = .IDLE then s else .IDLE

/-- `deviceId` enum of `LogiHardwareEvent`. -/
inductive DeviceId
  | MX_MASTER_4
  | MX_CREATIVE_CONSOLE
deriving DecidableEq, Repr

/-- `componentId` enum of `LogiHardwareEvent`. -/
inductive ComponentId
  | ACTIONS_RING
  | DIAL_A
  | DIAL_B
  | KEYPAD
deriving DecidableEq, Repr

/-- `eventType` enum of `LogiHardwareEvent`. -/
inductive HwEventType
  | PRESS
  | RELEASE
  | ROTATE
  | TAP
deriving DecidableEq, Repr

/-- `LogiHardwareEvent`; `value` is an optional number-or-string. -/
structure LogiHardwareEvent where
  timestamp : ℤ
  deviceId : DeviceId
  componentId : ComponentId
  eventType : HwEventType
  value : Option (ℚ ⊕ String)
deriving DecidableEq, Repr

/-- The Synapse event types of the internal bus. -/
inductive SynapseEventType
  | SYNAPSE_CLUTCH_ENGAGE
  | SYNAPSE_CLUTCH_RELEASE
  | SYNAPSE_DIAL_COMPUTE_MIX
  | SYNAPSE_DIAL_CONTEXT_WINDOW
  | SYNAPSE_KEYPAD_CONTEXT_SWITCH
deriving DecidableEq, Repr

/-- `mapHardwareEventToSynapseType` from `hardware-events`. -/
def mapHardwareEventToSynapseType (e : LogiHardwareEvent) : Option SynapseEventType :=
  if e.deviceId = .MX_MASTER_4 ∧ e.componentId = .ACTIONS_RING then
    if e.eventType = .PRESS then some .SYNAPSE_CLUTCH_ENGAGE
    else if e.eventType = .RELEASE then some .SYNAPSE_CLUTCH_RELEASE
    else none
  else if e.deviceId = .MX_CREATIVE_CONSOLE then
    if e.componentId = .DIAL_A ∧ e.eventType = .ROTATE then
      some .SYNAPSE_DIAL_COMPUTE_MIX
    else if e.componentId = .DIAL_B ∧ e.eventType = .ROTATE then
      some .SYNAPSE_DIAL_CONTEXT_WINDOW
    else if e.componentId = .KEYPAD ∧ (e.eventType = .PRESS ∨ e.eventType = .TAP) then
      some .SYNAPSE_KEYPAD_CONTEXT_SWITCH
    else none
  else none

/-- `typeof event.value === 'number' ? event.value : 0` in the daemon. -/
def LogiHardwareEvent.numericValue (e : LogiHardwareEvent) : ℚ :=
  match e.value with
  | some (.inl q) => q
  | _ => 0

/-- Fault injection for the four awaited capability-adapter calls of
`processHardwareEvent`.  A `true` flag means that call rejects; the daemon
has no try/catch around these awaits, so a rejection aborts the remainder of
the async function body. -/
structure AdapterFaults where
  voiceEngage : Bool
  voiceRelease : Bool
  bridgeEngage : Bool
  bridgeRelease : Bool
deriving DecidableEq, Repr

/-- All adapter calls resolve — the behaviour of the in-repo mock adapters
on daemon-produced events. -/
def AdapterFaults.none : AdapterFaults :=
  { voiceEngage := false, voiceRelease := false, bridgeEngage := false, bridgeRelease := false }

/-- The daemon's module-level mutable singletons: the connected client set,
the set of clients whose connections registered a message handler
(`canSendEvents`), the state machine, the kernel mixer, the voice pipeline
and the UI executor bridge. -/
structure DaemonState where
  clients : Finset ℕ
  senders : Finset ℕ
  machine : SynapseMachine
  mixer : KernelMixConfig
  voice : MockVoiceStatus
  bridge : OsControlState
deriving DecidableEq

/-- Daemon state at startup. -/
def DaemonState.initial : DaemonState :=
  { clients := ∅
    senders := ∅
    machine := SynapseMachine.initial
    mixer := MockKernelMixer.initial
    voice := .IDLE
    bridge := MockUiExecutorBridge.initial }

/-- The `STATE_UPDATE` payload fields that carry session state (timestamps,
latency and transcription text are not modelled). -/
structure Snapshot where
  machineState : SynapseStateValue
  state : SynapseState
  kernelConfig : KernelMixConfig
  osControlState : OsControlState
deriving DecidableEq

/-- Builds the broadcast payload from the current singletons, as the
`broadcast({...})` call at the end of `processHardwareEvent` does. -/
def mkSnapshot (s : DaemonState) : Snapshot :=
  { machineState := s.machine.stateValue
    state := s.machine.data
    kernelConfig := s.mixer
    osControlState := s.bridge }

/-- Result of one `processHardwareEvent` run: the updated singletons, the
broadcast payload if the broadcast fired, and whether the async function
ended in a rejection (propagated to the caller's catch). -/
structure HwResult where
  state : DaemonState
  snapshot : Option Snapshot
  failed : Bool
deriving DecidableEq

/-- The `switch (synapseType)` body of `processHardwareEvent` followed by the
final broadcast, with fault flags at the four awaited adapter calls.  Mirrors
`apps/synapse-core-daemon/src/index.ts` with the demo-transcription helpers
disabled (they are no-ops unless `SYNAPSE_DEMO_TRANSCRIPTION=1`). -/
def processSynapseEvent (f : AdapterFaults) (s : DaemonState) (t : SynapseEventType)
    (e : LogiHardwareEvent) : HwResult :=
  let persona := s.bridge.activePersona
  match t with
  | .SYNAPSE_CLUTCH_ENGAGE =>
      let s1 := { s with machine := s.machine.send (.CLUTCH_ENGAGE (some persona)) }
      if f.voiceEngage then ⟨s1, none, true⟩
      else
        let s2 := { s1 with voice := MockVoicePipeline.engage s1.voice }
        if f.bridgeEngage then ⟨s2, none, true⟩
        else
          match MockUiExecutorBridge.engage s2.bridge
              ⟨.ENGAGE, e.timestamp, persona⟩ with
          | .error _ => ⟨s2, none, true⟩
          | .ok b =>
              let s3 := { s2 with bridge := b }
              ⟨s3, some (mkSnapshot s3), false⟩
  | .SYNAPSE_CLUTCH_RELEASE =>
      let s1 := { s with machine := s.machine.send .CLUTCH_RELEASE }
      if f.voiceRelease then ⟨s1, none, true⟩
      else
        let s2 := { s1 with voice := MockVoicePipeline.release s1.voice }
        if f.bridgeRelease then ⟨s2, none, true⟩
        else
          match MockUiExecutorBridge.release s2.bridge
              ⟨.RELEASE, e.timestamp, persona⟩ with
          | .error _ => ⟨s2, none, true⟩
          | .ok b =>
              let s3 := { s2 with bridge := b }
              ⟨s3, some (mkSnapshot s3), false⟩
  | .SYNAPSE_DIAL_COMPUTE_MIX =>
      let delta := e.numericValue
      let newWeight := dialDeltaToComputeWeight s.mixer.computeMixWeight delta
      let s1 :=
        { s with
            mixer := MockKernelMixer.setComputeMix s.mixer newWeight
            machine := s.machine.send (.DIAL_COMPUTE delta) }
      ⟨s1, some (mkSnapshot s1), false⟩
  | .SYNAPSE_DIAL_CONTEXT_WINDOW =>
      let delta := e.numericValue
      let newTokens := dialDeltaToContextTokens s.mixer.contextWindowTokens delta
      let s1 := { s with mixer := MockKernelMixer.setContextWindow s.mixer newTokens }
      ⟨s1, some (mkSnapshot s1), false⟩
  | .SYNAPSE_KEYPAD_CONTEXT_SWITCH =>
      let key := e.numericValue
      match keypadToPersona key with
      | some p =>
          let s1 :=
            { s with
                machine := s.machine.send (.KEYPAD_SWITCH p)
                bridge := MockUiExecutorBridge.switchPersona s.bridge p }
          ⟨s1, some (mkSnapshot s1), false⟩
      | none => ⟨s, some (mkSnapshot s), false⟩

/-- `processHardwareEvent`: map the raw event; unmapped events are dropped
before any state change and before the broadcast. -/
def processHardwareEvent (f : AdapterFaults) (s : DaemonState) (e : LogiHardwareEvent) :
    HwResult :=
  match mapHardwareEventToSynapseType e with
  | Option.none => ⟨s, Option.none, false⟩
  | some t => processSynapseEvent f s t e

/-- Server-side configuration: the optional `SYNAPSE_WS_TOKEN` secret. -/
structure ServerConfig where
  configuredToken : Option String
deriving DecidableEq

/-- Result of the websocket connect handler for one incoming connection. -/
structure ConnectResult where
  state : DaemonState
  registered : Bool
  canSend : Bool
  errorSent : Bool
  sentSnapshots : List Snapshot
deriving DecidableEq

/-- The `/ws` connect handler of `buildServer`: a `role=plugin` connection
must present the configured token; on mismatch it is sent an `ERROR` and
closed before being added to `clients`, and no message handler is installed
for it.  Accepted connections are registered and immediately unicast the
current snapshot; only `canSendEvents` connections get a message handler
(membership in `senders`). -/
def onConnect (cfg : ServerConfig) (s : DaemonState) (id : ℕ) (role : String)
    (token : Option String) : ConnectResult :=
  let isPlugin := role = "plugin"
  let isTokenConfigured := cfg.configuredToken.isSome
  let canSendEvents := isPlugin ∧ (¬isTokenConfigured ∨ token = cfg.configuredToken)
  if isPlugin ∧ isTokenConfigured ∧ ¬canSendEvents then
    { state := s
      registered := false
      canSend := false
      errorSent := true
      sentSnapshots := [] }
  else
    { state :=
        { s with
            clients := insert id s.clients
            senders := if canSendEvents then insert id s.senders else s.senders }
      registered := true
      canSend := decide canSendEvents
      errorSent := false
      sentSnapshots := [mkSnapshot s] }

/-- The per-connection message path: only connections whose connect handler
installed a message handler (`canSendEvents`) ever reach
`processHardwareEvent`, and only after `LogiHardwareEventSchema.parse`
succeeds (timestamp positive; the remaining schema constraints hold by
typing).  Parse failures are answered with an `ERROR` and processed no
further. -/
def onMessage (s : DaemonState) (id : ℕ) (e : LogiHardwareEvent) :
    DaemonState × Option Snapshot :=
  if id ∈ s.senders then
    if 0 < e.timestamp then
      let r := processHardwareEvent AdapterFaults.none s e
      (r.state, r.snapshot)
    else (s, Option.none)
  else (s, Option.none)

/-- The `connection.on('close')` handler: remove the socket; if the registry
became empty while the clutch is engaged, send `CLUTCH_RELEASE` to the
machine and release the voice pipeline and the UI bridge (the release event
carries `Date.now()`, a positive timestamp, so the bridge parse succeeds and
yields the released control state). -/
def onClose (s : DaemonState) (id : ℕ) : DaemonState :=
  let clients' := s.clients.erase id
  let s1 := { s with clients := clients', senders := s.senders.erase id }
  if clients' = ∅ ∧ s1.machine.data.isClutchEngaged then
    { s1 with
        machine := s1.machine.send .CLUTCH_RELEASE
        voice := MockVoicePipeline.release s1.voice
        bridge :=
          { owner := .PHYSICAL_MOUSE
            handedOffAt := none
            activePersona := s1.bridge.activePersona } }
  else s1

/-- One externally triggered daemon transition: a hardware event arriving on
a sender connection, a websocket connect, or a websocket close. -/
inductive DaemonStep
  | hw (e : LogiHardwareEvent)
  | connect (id : ℕ) (role : String) (token : Option String)
  | close (id : ℕ)

/-- Apply one daemon step, accumulating every snapshot pushed to clients
(connect unicasts and event broadcasts). -/
def daemonStep (cfg : ServerConfig) (acc : DaemonState × List Snapshot) (st : DaemonStep) :
    DaemonState × List Snapshot :=
  match st with
  | .hw e =>
      if 0 < e.timestamp then
        let r := processHardwareEvent AdapterFaults.none acc.1 e
        (r.state, acc.2 ++ r.snapshot.toList)
      else acc
  | .connect id role token =>
      let r := onConnect cfg acc.1 id role token
      (r.state, acc.2 ++ r.sentSnapshots)
  | .close id => (onClose acc.1 id, acc.2)

/-- Run the daemon from startup through a sequence of external steps. -/
def runDaemon (cfg : ServerConfig) (steps : List DaemonStep) : DaemonState × List Snapshot :=
  steps.foldl (daemonStep cfg) (DaemonState.initial, [])

/-- A websocket client as `broadcast` sees it: its `readyState` (open or
not) and whether `client.send` throws. -/
structure WsClient where
  id : ℕ
  isOpen : Bool
  sendFails : Bool
deriving DecidableEq, Repr

/-- Accumulated effect of the `broadcast` loop: the clients still in the
live set and the `(client, message)` deliveries that succeeded. -/
structure BroadcastResult where
  surviving : List WsClient
  delivered : List (WsClient × String)
deriving DecidableEq, Repr

/-- One iteration of the `broadcast` loop: a client whose `readyState` is
not `OPEN` is deleted without a send attempt; a client whose `send` throws
is deleted by the `catch`; otherwise the client keeps its registration and
receives the message. -/
def broadcastStep (msg : String) (acc : BroadcastResult) (c : WsClient) : BroadcastResult :=
  if c.isOpen = false then acc
  else if c.sendFails then acc
  else
    { surviving := acc.surviving ++ [c]
      delivered := acc.delivered ++ [(c, msg)] }

/-- `broadcast` from the daemon: serialize once, iterate the client set. -/
def wsBroadcast (clients : List WsClient) (msg : String) : BroadcastResult :=
  clients.foldl (broadcastStep msg) ⟨[], []⟩

/-- Whether `broadcast` delivers to this client and keeps it registered. -/
def WsClient.deliverable (c : WsClient) : Bool :=
  c.isOpen && !c.sendFails
/-- The invariant of daemon-reachable states: the machine phase stays in
{IDLE, CLUTCH_ENGAGED} (hardware events never produce `VOICE_READY` or
`AGENT_READY`), the machine satisfies the lockstep invariant, and the
bridge persona mirrors the machine's active agent context. -/
def DaemonInv (s : DaemonState) : Prop :=
  (s.machine.stateValue = .IDLE ∨ s.machine.stateValue = .CLUTCH_ENGAGED) ∧
    MachineInv s.machine ∧
    s.bridge.activePersona = s.machine.data.activeAgentContext

lemma machineInv_initial : MachineInv SynapseMachine.initial := by
  decide

lemma machineInv_send (m : SynapseMachine) (e : SynapseMachineEvent) (h : MachineInv m) :
    MachineInv (m.send e) := by
  obtain ⟨h1, h2⟩ := h
  cases m with
  | mk sv d =>
    cases sv <;> cases e <;>
      simp_all [SynapseMachine.send, SynapseMachine.handleIdle,
        SynapseMachine.handleClutchEngaged, SynapseMachine.handleVoiceActive,
        SynapseMachine.handleAgentExecuting, SynapseMachine.releaseClutch,
        SynapseMachine.applyDialCompute, MachineInv, voiceStatusOfPhase]

lemma machineInv_run (m : SynapseMachine) (es : List SynapseMachineEvent) (h : MachineInv m) :
    MachineInv (m.run es) := by
  induction es generalizing m with
  | nil => exact h
  | cons e es ih => exact ih _ (machineInv_send m e h)


lemma clamp01_of_bounds (x : ℚ) (h0 : 0 ≤ x) (h1 : x ≤ 1) : min 1 (max 0 x) = x := by
  rw [max_eq_right h0, min_eq_right h1]

lemma send_dialCompute (m : SynapseMachine) (d : ℚ) :
    m.send (.DIAL_COMPUTE d) = { m with data := SynapseMachine.applyDialCompute m.data d } := by
  cases m with
  | mk sv data => cases sv <;> rfl

lemma send_release_context (m : SynapseMachine) :
    (m.send .CLUTCH_RELEASE).data.activeAgentContext = m.data.activeAgentContext := by
  cases m with
  | mk sv data => cases sv <;> rfl

lemma send_release_cases (m : SynapseMachine) :
    (m.send .CLUTCH_RELEASE).stateValue = .IDLE ∨
      (m.stateValue = .IDLE ∧ m.send .CLUTCH_RELEASE = m) := by
  cases m with
  | mk sv data =>
    cases sv
    · exact Or.inr ⟨rfl, rfl⟩
    · exact Or.inl rfl
    · exact Or.inl rfl
    · exact Or.inl rfl

/-- C2: from every phase in {CLUTCH_ENGAGED, VOICE_ACTIVE, AGENT_EXECUTING},
`send(CLUTCH_RELEASE)` goes directly to `IDLE` with `isClutchEngaged = false`
and `voicePipelineStatus = IDLE`, leaving `activeAgentContext` and
`computeMixWeight` untouched; from `IDLE` it is a no-op. -/
theorem clutch_release_priority0 (m : SynapseMachine) :
    ((m.stateValue = .CLUTCH_ENGAGED ∨ m.stateValue = .VOICE_ACTIVE ∨
        m.stateValue = .AGENT_EXECUTING) →
      m.send .CLUTCH_RELEASE =
        { stateValue := .IDLE
          data := { m.data with isClutchEngaged := false, voicePipelineStatus := .IDLE } }) ∧
      (m.stateValue = .IDLE → m.send .CLUTCH_RELEASE = m) := by
  cases m with
  | mk sv data =>
    constructor
    · rintro (h | h | h) <;> subst h <;> rfl
    · intro h
      subst h
      rfl

/-- Witness for C2 at a concrete `VOICE_ACTIVE` state and a concrete `IDLE`
state. -/
theorem clutch_release_priority0_witness :
    SynapseMachine.send ⟨.VOICE_ACTIVE, ⟨true, .NAVIGATOR, 7/10, .PROCESSING⟩⟩ .CLUTCH_RELEASE =
        ⟨.IDLE, ⟨false, .NAVIGATOR, 7/10, .IDLE⟩⟩ ∧
      SynapseMachine.send ⟨.IDLE, ⟨false, .CODER, 1/2, .IDLE⟩⟩ .CLUTCH_RELEASE =
        ⟨.IDLE, ⟨false, .CODER, 1/2, .IDLE⟩⟩ :=
  ⟨(clutch_release_priority0 ⟨.VOICE_ACTIVE, ⟨true, .NAVIGATOR, 7/10, .PROCESSING⟩⟩).1
      (Or.inr (Or.inl rfl)),
    (clutch_release_priority0 ⟨.IDLE, ⟨false, .CODER, 1/2, .IDLE⟩⟩).2 rfl⟩

/-- C3: after any sequence of events from the fresh machine, the voice
status is the function of the phase given by `voiceStatusOfPhase` and the
clutch flag is true exactly when the phase is not `IDLE`. -/
theorem phase_voice_lockstep (es : List SynapseMachineEvent) :
    (SynapseMachine.initial.run es).data.voicePipelineStatus =
        voiceStatusOfPhase (SynapseMachine.initial.run es).stateValue ∧
      ((SynapseMachine.initial.run es).data.isClutchEngaged = true ↔
        (SynapseMachine.initial.run es).stateValue ≠ .IDLE) :=
  machineInv_run SynapseMachine.initial es machineInv_initial

/-- C5 counterexample: from the initial weight 0.5, the dial sequence
[+100, −3] ends at 0.85 while the claim's clamped-sum formula gives 1, and
the reversed sequence [−3, +100] ends at 1 — the per-step clamp is neither
the clamp of the sum nor order-independent. -/
theorem dial_compute_clamped_sum_cex :
    (SynapseMachine.initial.run
        [.DIAL_COMPUTE 100, .DIAL_COMPUTE (-3)]).data.computeMixWeight = 17/20 ∧
      min 1 (max 0 (SynapseMachine.initial.data.computeMixWeight + (100 + -3) * (5/100))) = 1 ∧
      (SynapseMachine.initial.run
          [.DIAL_COMPUTE 100, .DIAL_COMPUTE (-3)]).data.computeMixWeight ≠
        min 1 (max 0 (SynapseMachine.initial.data.computeMixWeight + (100 + -3) * (5/100))) ∧
      (SynapseMachine.initial.run
          [.DIAL_COMPUTE (-3), .DIAL_COMPUTE 100]).data.computeMixWeight = 1 := by
  refine ⟨?_, ?_, ?_, ?_⟩ <;>
    norm_num [SynapseMachine.run, List.foldl_cons, List.foldl_nil, send_dialCompute,
      SynapseMachine.applyDialCompute, SynapseMachine.initial, min_def, max_def]

/-- C5 amended: the machine applies the clamp at every step, so the final
weight is the per-step clamped fold; it coincides with the claim's
`clamp(initial + Σ delta·0.05)` exactly when no prefix of the sequence
leaves [0, 1]. -/
theorem dial_compute_prefix_sum (m : SynapseMachine) (ds : List ℚ)
    (h : ∀ k, k ≤ ds.length →
      0 ≤ m.data.computeMixWeight + (ds.take k).sum * (5/100) ∧
        m.data.computeMixWeight + (ds.take k).sum * (5/100) ≤ 1) :
    (m.run (ds.map SynapseMachineEvent.DIAL_COMPUTE)).data.computeMixWeight =
      min 1 (max 0 (m.data.computeMixWeight + ds.sum * (5/100))) := by
  induction ds generalizing m with
  | nil =>
      have h0 := h 0 (Nat.zero_le _)
      simp only [List.take_zero, List.sum_nil, zero_mul, add_zero] at h0
      simp [SynapseMachine.run, clamp01_of_bounds _ h0.1 h0.2]
  | cons d ds ih =>
      have h1 := h 1 (by simp)
      simp only [List.take_succ_cons, List.take_zero, List.sum_cons, List.sum_nil,
        add_zero] at h1
      have hstep : (m.send (.DIAL_COMPUTE d)).data.computeMixWeight =
          m.data.computeMixWeight + d * (5/100) := by
        rw [send_dialCompute]
        exact clamp01_of_bounds _ h1.1 h1.2
      have hrun : m.run ((d :: ds).map SynapseMachineEvent.DIAL_COMPUTE) =
          (m.send (.DIAL_COMPUTE d)).run (ds.map SynapseMachineEvent.DIAL_COMPUTE) := rfl
      rw [hrun, ih (m.send (.DIAL_COMPUTE d)) ?_]
      · rw [hstep, List.sum_cons]
        ring_nf
      · intro k hk
        have hk' := h (k + 1) (by simpa using Nat.succ_le_succ hk)
        simp only [List.take_succ_cons, List.sum_cons] at hk'
        rw [hstep]
        constructor
        · have := hk'.1
          ring_nf at this ⊢
          linarith
        · have := hk'.2
          ring_nf at this ⊢
          linarith

/-- Witness for C5 amended: the round-trip [+2, −2] from weight 0.5 keeps
every prefix inside [0, 1] and lands exactly on the clamped sum 0.5. -/
theorem dial_compute_prefix_sum_witness :
    (∀ k, k ≤ ([(2 : ℚ), -2]).length →
      0 ≤ SynapseMachine.initial.data.computeMixWeight +
          (([(2 : ℚ), -2]).take k).sum * (5/100) ∧
        SynapseMachine.initial.data.computeMixWeight +
          (([(2 : ℚ), -2]).take k).sum * (5/100) ≤ 1) ∧
      (SynapseMachine.initial.run
          (([(2 : ℚ), -2]).map SynapseMachineEvent.DIAL_COMPUTE)).data.computeMixWeight =
        min 1 (max 0 (SynapseMachine.initial.data.computeMixWeight +
          ([(2 : ℚ), -2]).sum * (5/100))) :=
  ⟨by
      intro k hk
      simp only [List.length_cons, List.length_nil] at hk
      interval_cases k <;>
        norm_num [SynapseMachine.initial, List.take_succ_cons, List.sum_cons],
    dial_compute_prefix_sum SynapseMachine.initial [2, -2] (by
      intro k hk
      simp only [List.length_cons, List.length_nil] at hk
      interval_cases k <;>
        norm_num [SynapseMachine.initial, List.take_succ_cons, List.sum_cons])⟩

lemma clamp01_lt_half (w : ℚ) : min 1 (max 0 w) < 1/2 ↔ w < 1/2 := by
  constructor
  · intro h
    by_contra hw
    push_neg at hw
    have h1 : (1 : ℚ)/2 ≤ max 0 w := le_trans hw (le_max_right 0 w)
    have h2 : (1 : ℚ)/2 ≤ min 1 (max 0 w) := le_min (by norm_num) h1
    linarith
  · intro h
    exact lt_of_le_of_lt (min_le_right _ _) (max_lt (by norm_num) h)

/-- C9 counterexample: the mixer's initial configuration has
`computeMixWeight = 0.5` but `primaryModel = LOCAL_LLAMA3`, so at the
initial point "primaryModel is the cloud model iff weight ≥ 0.5" is false. -/
theorem primary_model_initial_cex :
    ¬(MockKernelMixer.initial.primaryModel = .CLOUD_CLAUDE_3_5_SONNET ↔
        1/2 ≤ MockKernelMixer.initial.computeMixWeight) := by
  intro h
  have h1 : MockKernelMixer.initial.primaryModel = .CLOUD_CLAUDE_3_5_SONNET :=
    h.mpr (by norm_num [MockKernelMixer.initial])
  exact absurd h1 (by simp [MockKernelMixer.initial])

/-- C9 amended: after every `setComputeMix` call (hence after every
compute-dial event) the stored `primaryModel` is `LOCAL_LLAMA3` iff the
stored weight is below 0.5 and `CLOUD_CLAUDE_3_5_SONNET` iff it is at least
0.5; only the constructor's initial configuration (primaryModel defaulted to
`LOCAL_LLAMA3` at weight 0.5) escapes this rule. -/
theorem primary_model_tracks_weight (cfg : KernelMixConfig) (w : ℚ) :
    ((MockKernelMixer.setComputeMix cfg w).primaryModel = .LOCAL_LLAMA3 ↔
        (MockKernelMixer.setComputeMix cfg w).computeMixWeight < 1/2) ∧
      ((MockKernelMixer.setComputeMix cfg w).primaryModel = .CLOUD_CLAUDE_3_5_SONNET ↔
        1/2 ≤ (MockKernelMixer.setComputeMix cfg w).computeMixWeight) := by
  have hcw : (MockKernelMixer.setComputeMix cfg w).computeMixWeight = min 1 (max 0 w) := rfl
  have hpm : (MockKernelMixer.setComputeMix cfg w).primaryModel = selectModel w := rfl
  rw [hcw, hpm]
  unfold selectModel
  by_cases hw : w < 1/2
  · have hs : min 1 (max 0 w) < 1/2 := (clamp01_lt_half w).mpr hw
    rw [if_pos hw]
    exact ⟨⟨fun _ => hs, fun _ => rfl⟩,
      ⟨fun h => absurd h (by simp), fun h => absurd h (not_le.mpr hs)⟩⟩
  · have hs : (1 : ℚ)/2 ≤ min 1 (max 0 w) :=
      not_lt.mp (fun h => hw ((clamp01_lt_half w).mp h))
    rw [if_neg hw]
    exact ⟨⟨fun h => absurd h (by simp), fun h => absurd h (not_lt.mpr hs)⟩,
      ⟨fun _ => hs, fun _ => rfl⟩⟩

/-- C10: `release` validates the (well-formed) event and then
unconditionally resets the control state — owner back to `PHYSICAL_MOUSE`,
`handedOffAt` cleared, persona taken from the event — from any current
state, including the never-engaged initial state; releasing again from the
released state yields the same result. -/
theorem bridge_release_unconditional (s : OsControlState) (e : ClutchEvent)
    (h : 0 < e.timestamp) :
    MockUiExecutorBridge.release s e =
        .ok { owner := .PHYSICAL_MOUSE, handedOffAt := none,
              activePersona := e.agentPersona } ∧
      MockUiExecutorBridge.release
          { owner := .PHYSICAL_MOUSE, handedOffAt := none,
            activePersona := e.agentPersona } e =
        .ok { owner := .PHYSICAL_MOUSE, handedOffAt := none,
              activePersona := e.agentPersona } := by
  unfold MockUiExecutorBridge.release
  simp [ClutchEvent.isValid, h]

/-- Witness for C10: releasing from a mid-engage agent-owned state, and
from the initial state, both restore the physical mouse. -/
theorem bridge_release_unconditional_witness :
    (0 : ℤ) < 42 ∧
      MockUiExecutorBridge.release
          { owner := .JAYU_AGENT, handedOffAt := some 7, activePersona := .RESEARCHER }
          { type := .RELEASE, timestamp := 42, agentPersona := .RESEARCHER } =
        .ok { owner := .PHYSICAL_MOUSE, handedOffAt := none,
              activePersona := .RESEARCHER } :=
  ⟨by decide,
    (bridge_release_unconditional
        { owner := .JAYU_AGENT, handedOffAt := some 7, activePersona := .RESEARCHER }
        { type := .RELEASE, timestamp := 42, agentPersona := .RESEARCHER }
        (by decide)).1⟩

lemma wsBroadcast_go (msg : String) (clients : List WsClient) (acc : BroadcastResult) :
    clients.foldl (broadcastStep msg) acc =
      { surviving := acc.surviving ++ clients.filter (fun c => c.deliverable)
        delivered :=
          acc.delivered ++ (clients.filter (fun c => c.deliverable)).map (fun c => (c, msg)) } := by
  induction clients generalizing acc with
  | nil => simp
  | cons c cs ih =>
      rw [List.foldl_cons, ih]
      by_cases ho : c.isOpen
      · by_cases hf : c.sendFails
        · simp [broadcastStep, WsClient.deliverable, ho, hf]
        · simp [broadcastStep, WsClient.deliverable, ho, hf]
      · simp [broadcastStep, WsClient.deliverable, ho]

lemma mem_map_pair (l : List WsClient) (msg : String) (c : WsClient) :
    (c, msg) ∈ l.map (fun a => (a, msg)) ↔ c ∈ l := by
  simp

lemma wsBroadcast_eq (clients : List WsClient) (msg : String) :
    wsBroadcast clients msg =
      { surviving := clients.filter (fun c => c.deliverable)
        delivered := (clients.filter (fun c => c.deliverable)).map (fun c => (c, msg)) } := by
  unfold wsBroadcast
  rw [wsBroadcast_go]
  simp

/-- C7: `broadcast` delivers the serialized snapshot to exactly the open
connections whose send succeeds and keeps exactly those in the live set; a
closed or throwing connection is dropped without affecting delivery to any
other connection. -/
theorem broadcast_partial_failure (clients : List WsClient) (msg : String) (c : WsClient) :
    ((c, msg) ∈ (wsBroadcast clients msg).delivered ↔
        c ∈ clients ∧ c.isOpen = true ∧ c.sendFails = false) ∧
      (c ∈ (wsBroadcast clients msg).surviving ↔
        c ∈ clients ∧ c.isOpen = true ∧ c.sendFails = false) := by
  rw [wsBroadcast_eq]
  constructor
  · simp only [mem_map_pair, List.mem_filter, WsClient.deliverable, Bool.and_eq_true,
      Bool.not_eq_true', and_assoc]
  · simp only [List.mem_filter, WsClient.deliverable, Bool.and_eq_true,
      Bool.not_eq_true', and_assoc]

/-- Witness for C7, the spec's three-connection scenario: connection 2's
send throws; 1 and 3 still receive the snapshot and 2 leaves the live set. -/
theorem broadcast_partial_failure_witness :
    ((⟨1, true, false⟩ : WsClient), "snap") ∈
        (wsBroadcast [⟨1, true, false⟩, ⟨2, true, true⟩, ⟨3, true, false⟩] "snap").delivered ∧
      ((⟨3, true, false⟩ : WsClient), "snap") ∈
        (wsBroadcast [⟨1, true, false⟩, ⟨2, true, true⟩, ⟨3, true, false⟩] "snap").delivered ∧
      (⟨2, true, true⟩ : WsClient) ∉
        (wsBroadcast [⟨1, true, false⟩, ⟨2, true, true⟩, ⟨3, true, false⟩] "snap").surviving :=
  ⟨(broadcast_partial_failure [⟨1, true, false⟩, ⟨2, true, true⟩, ⟨3, true, false⟩]
        "snap" ⟨1, true, false⟩).1.mpr (by simp),
    (broadcast_partial_failure [⟨1, true, false⟩, ⟨2, true, true⟩, ⟨3, true, false⟩]
        "snap" ⟨3, true, false⟩).1.mpr (by simp),
    fun hm =>
      absurd ((broadcast_partial_failure [⟨1, true, false⟩, ⟨2, true, true⟩, ⟨3, true, false⟩]
        "snap" ⟨2, true, true⟩).2.mp hm) (by simp)⟩

lemma processSynapse_snapOk (f : AdapterFaults) (s : DaemonState) (t : SynapseEventType)
    (e : LogiHardwareEvent) :
    (∀ snap, (processSynapseEvent f s t e).snapshot = some snap →
        snap = mkSnapshot (processSynapseEvent f s t e).state) ∧
      ((processSynapseEvent f s t e).failed = true →
        (processSynapseEvent f s t e).snapshot = none) := by
  cases t with
  | SYNAPSE_CLUTCH_ENGAGE =>
      simp only [processSynapseEvent]
      split
      · simp
      · split
        · simp
        · cases hE : MockUiExecutorBridge.engage s.bridge
              { type := ClutchEventType.ENGAGE, timestamp := e.timestamp,
                agentPersona := s.bridge.activePersona } with
          | error a => simp [hE]
          | ok b => simp [hE]
  | SYNAPSE_CLUTCH_RELEASE =>
      simp only [processSynapseEvent]
      split
      · simp
      · split
        · simp
        · cases hE : MockUiExecutorBridge.release s.bridge
              { type := ClutchEventType.RELEASE, timestamp := e.timestamp,
                agentPersona := s.bridge.activePersona } with
          | error a => simp [hE]
          | ok b => simp [hE]
  | SYNAPSE_DIAL_COMPUTE_MIX => simp [processSynapseEvent]
  | SYNAPSE_DIAL_CONTEXT_WINDOW => simp [processSynapseEvent]
  | SYNAPSE_KEYPAD_CONTEXT_SWITCH =>
      simp only [processSynapseEvent]
      cases hk : keypadToPersona e.numericValue with
      | none => simp [hk]
      | some p => simp [hk]

lemma processHw_snapOk (f : AdapterFaults) (s : DaemonState) (e : LogiHardwareEvent) :
    (∀ snap, (processHardwareEvent f s e).snapshot = some snap →
        snap = mkSnapshot (processHardwareEvent f s e).state) ∧
      ((processHardwareEvent f s e).failed = true →
        (processHardwareEvent f s e).snapshot = none) := by
  unfold processHardwareEvent
  cases hmap : mapHardwareEventToSynapseType e with
  | none => simp
  | some t => exact processSynapse_snapOk f s t e

lemma processHw_nofail (s : DaemonState) (e : LogiHardwareEvent) (hts : 0 < e.timestamp) :
    (processHardwareEvent AdapterFaults.none s e).failed = false ∧
      ((processHardwareEvent AdapterFaults.none s e).snapshot.isSome ↔
        (mapHardwareEventToSynapseType e).isSome) := by
  unfold processHardwareEvent
  cases hmap : mapHardwareEventToSynapseType e with
  | none => simp
  | some t =>
    cases t with
    | SYNAPSE_CLUTCH_ENGAGE =>
        by_cases hb : s.bridge.owner = .JAYU_AGENT <;>
          simp [processSynapseEvent, AdapterFaults.none, MockUiExecutorBridge.engage,
            ClutchEvent.isValid, hts, hb]
    | SYNAPSE_CLUTCH_RELEASE =>
        simp [processSynapseEvent, AdapterFaults.none, MockUiExecutorBridge.release,
          ClutchEvent.isValid, hts]
    | SYNAPSE_DIAL_COMPUTE_MIX => simp [processSynapseEvent]
    | SYNAPSE_DIAL_CONTEXT_WINDOW => simp [processSynapseEvent]
    | SYNAPSE_KEYPAD_CONTEXT_SWITCH =>
        cases hk : keypadToPersona e.numericValue <;> simp [processSynapseEvent, hk]

lemma send_engage_phase (m : SynapseMachine) (p : Option AgentPersona)
    (hp : m.stateValue = .IDLE ∨ m.stateValue = .CLUTCH_ENGAGED) :
    (m.send (.CLUTCH_ENGAGE p)).stateValue = .IDLE ∨
      (m.send (.CLUTCH_ENGAGE p)).stateValue = .CLUTCH_ENGAGED := by
  rcases hp with h | h <;>
    simp [SynapseMachine.send, h, SynapseMachine.handleIdle,
      SynapseMachine.handleClutchEngaged]

lemma send_engage_context (m : SynapseMachine) (q : AgentPersona)
    (hp : m.stateValue = .IDLE ∨ m.stateValue = .CLUTCH_ENGAGED)
    (hq : m.data.activeAgentContext = q) :
    (m.send (.CLUTCH_ENGAGE (some q))).data.activeAgentContext = q := by
  rcases hp with h | h <;>
    simp [SynapseMachine.send, h, SynapseMachine.handleIdle,
      SynapseMachine.handleClutchEngaged, hq]

lemma send_keypad (m : SynapseMachine) (p : AgentPersona)
    (hp : m.stateValue = .IDLE ∨ m.stateValue = .CLUTCH_ENGAGED) :
    (m.send (.KEYPAD_SWITCH p)).stateValue = m.stateValue ∧
      (m.send (.KEYPAD_SWITCH p)).data.activeAgentContext = p := by
  rcases hp with h | h <;>
    simp [SynapseMachine.send, h, SynapseMachine.handleIdle,
      SynapseMachine.handleClutchEngaged]

lemma engage_ok_persona (b : OsControlState) (ev : ClutchEvent) (b' : OsControlState)
    (h : MockUiExecutorBridge.engage b ev = .ok b') :
    b'.activePersona = ev.agentPersona ∨ b' = b := by
  unfold MockUiExecutorBridge.engage at h
  split at h
  · cases h
    exact Or.inr rfl
  · split at h
    · cases h
      exact Or.inl rfl
    · cases h

lemma release_ok_state (b : OsControlState) (ev : ClutchEvent) (b' : OsControlState)
    (h : MockUiExecutorBridge.release b ev = .ok b') :
    b' = { owner := .PHYSICAL_MOUSE, handedOffAt := none,
           activePersona := ev.agentPersona } := by
  unfold MockUiExecutorBridge.release at h
  split at h
  · cases h
    rfl
  · cases h

lemma daemonInv_processSynapse (f : AdapterFaults) (s : DaemonState) (t : SynapseEventType)
    (e : LogiHardwareEvent) (h : DaemonInv s) :
    DaemonInv (processSynapseEvent f s t e).state := by
  obtain ⟨hp, hmi, hmirror⟩ := h
  cases t with
  | SYNAPSE_CLUTCH_ENGAGE =>
      have hctx := send_engage_context s.machine s.bridge.activePersona hp hmirror.symm
      have hph := send_engage_phase s.machine (some s.bridge.activePersona) hp
      have hmi' := machineInv_send s.machine (.CLUTCH_ENGAGE (some s.bridge.activePersona)) hmi
      simp only [processSynapseEvent]
      split
      · exact ⟨hph, hmi', hctx.symm⟩
      · split
        · exact ⟨hph, hmi', hctx.symm⟩
        · cases hE : MockUiExecutorBridge.engage s.bridge
              { type := ClutchEventType.ENGAGE, timestamp := e.timestamp,
                agentPersona := s.bridge.activePersona } with
          | error a => exact ⟨hph, hmi', hctx.symm⟩
          | ok b =>
              refine ⟨hph, hmi', ?_⟩
              rcases engage_ok_persona s.bridge _ b hE with hb | hb
              · simpa [hb] using hctx.symm
              · simpa [hb] using hctx.symm
  | SYNAPSE_CLUTCH_RELEASE =>
      have hctx := send_release_context s.machine
      have hph : (s.machine.send .CLUTCH_RELEASE).stateValue = .IDLE ∨
          (s.machine.send .CLUTCH_RELEASE).stateValue = .CLUTCH_ENGAGED := by
        rcases send_release_cases s.machine with h | ⟨h1, h2⟩
        · exact Or.inl h
        · rw [h2]
          exact Or.inl h1
      have hmi' := machineInv_send s.machine .CLUTCH_RELEASE hmi
      simp only [processSynapseEvent]
      split
      · exact ⟨hph, hmi', by rw [hctx]; exact hmirror⟩
      · split
        · exact ⟨hph, hmi', by rw [hctx]; exact hmirror⟩
        · cases hE : MockUiExecutorBridge.release s.bridge
              { type := ClutchEventType.RELEASE, timestamp := e.timestamp,
                agentPersona := s.bridge.activePersona } with
          | error a => exact ⟨hph, hmi', by rw [hctx]; exact hmirror⟩
          | ok b =>
              refine ⟨hph, hmi', ?_⟩
              rw [release_ok_state s.bridge _ b hE, hctx]
              exact hmirror
  | SYNAPSE_DIAL_COMPUTE_MIX =>
      refine ⟨?_, machineInv_send _ _ hmi, ?_⟩
      · simpa only [processSynapseEvent, send_dialCompute] using hp
      · simpa only [processSynapseEvent, send_dialCompute] using hmirror
  | SYNAPSE_DIAL_CONTEXT_WINDOW =>
      exact ⟨hp, hmi, hmirror⟩
  | SYNAPSE_KEYPAD_CONTEXT_SWITCH =>
      simp only [processSynapseEvent]
      cases hk : keypadToPersona e.numericValue with
      | none => exact ⟨hp, hmi, hmirror⟩
      | some p =>
          obtain ⟨hph, hctx⟩ := send_keypad s.machine p hp
          refine ⟨?_, machineInv_send _ _ hmi, ?_⟩
          · rw [hph]
            exact hp
          · simp [MockUiExecutorBridge.switchPersona, hctx]

lemma daemonInv_hw (f : AdapterFaults) (s : DaemonState) (e : LogiHardwareEvent)
    (h : DaemonInv s) :
    DaemonInv (processHardwareEvent f s e).state := by
  unfold processHardwareEvent
  cases hmap : mapHardwareEventToSynapseType e with
  | none => exact h
  | some t => exact daemonInv_processSynapse f s t e h

lemma daemonInv_daemonStep (cfg : ServerConfig) (acc : DaemonState × List Snapshot)
    (st : DaemonStep) (h : DaemonInv acc.1) : DaemonInv (daemonStep cfg acc st).1 := by
  cases st with
  | hw e =>
      simp only [daemonStep]
      split
      · exact daemonInv_hw _ _ _ h
      · exact h
  | connect id role token =>
      simp only [daemonStep, onConnect]
      split
      · exact h
      · exact h
  | close id =>
      simp only [daemonStep, onClose]
      split
      · obtain ⟨hp, hmi, hmirror⟩ := h
        refine ⟨?_, machineInv_send _ _ hmi, ?_⟩
        · rcases send_release_cases acc.1.machine with hrel | ⟨h1, h2⟩
          · exact Or.inl hrel
          · rw [h2]
            exact Or.inl h1
        · rw [send_release_context]
          exact hmirror
      · exact h

lemma daemonStep_snaps (cfg : ServerConfig) (acc : DaemonState × List Snapshot)
    (st : DaemonStep) (h1 : DaemonInv acc.1)
    (h2 : ∀ snap ∈ acc.2,
      snap.osControlState.activePersona = snap.state.activeAgentContext) :
    ∀ snap ∈ (daemonStep cfg acc st).2,
      snap.osControlState.activePersona = snap.state.activeAgentContext := by
  cases st with
  | hw e =>
      simp only [daemonStep]
      split
      · intro snap hsnap
        rcases List.mem_append.mp hsnap with hmem | hmem
        · exact h2 snap hmem
        · have hsome : (processHardwareEvent AdapterFaults.none acc.1 e).snapshot =
              some snap := by
            cases hopt : (processHardwareEvent AdapterFaults.none acc.1 e).snapshot with
            | none => rw [hopt] at hmem; simp at hmem
            | some sn =>
                rw [hopt] at hmem
                simp at hmem
                rw [hmem]
          rw [(processHw_snapOk AdapterFaults.none acc.1 e).1 snap hsome]
          exact (daemonInv_hw AdapterFaults.none acc.1 e h1).2.2
      · exact h2
  | connect id role token =>
      simp only [daemonStep, onConnect]
      split
      · simpa using h2
      · intro snap hsnap
        rcases List.mem_append.mp hsnap with hmem | hmem
        · exact h2 snap hmem
        · simp only [List.mem_singleton] at hmem
          rw [hmem]
          exact h1.2.2
  | close id => simpa only [daemonStep] using h2

lemma daemon_run_inv (cfg : ServerConfig) (steps : List DaemonStep)
    (acc : DaemonState × List Snapshot) (h1 : DaemonInv acc.1)
    (h2 : ∀ snap ∈ acc.2,
      snap.osControlState.activePersona = snap.state.activeAgentContext) :
    DaemonInv (steps.foldl (daemonStep cfg) acc).1 ∧
      ∀ snap ∈ (steps.foldl (daemonStep cfg) acc).2,
        snap.osControlState.activePersona = snap.state.activeAgentContext := by
  induction steps generalizing acc with
  | nil => exact ⟨h1, h2⟩
  | cons st sts ih =>
      rw [List.foldl_cons]
      exact ih _ (daemonInv_daemonStep cfg acc st h1) (daemonStep_snaps cfg acc st h1 h2)

lemma daemonInv_initial : DaemonInv DaemonState.initial :=
  ⟨Or.inl rfl, machineInv_initial, rfl⟩

lemma daemonInv_run (cfg : ServerConfig) (steps : List DaemonStep) :
    DaemonInv (runDaemon cfg steps).1 :=
  (daemon_run_inv cfg steps (DaemonState.initial, []) daemonInv_initial (by simp)).1

/-- C8: starting from the initial daemon state (machine context and bridge
persona both `CODER`), after any sequence of hardware events, connects and
disconnects, the bridge's `activePersona` equals the machine's
`activeAgentContext`, and every snapshot ever pushed to a client carries
equal `osControlState.activePersona` and `state.activeAgentContext`. -/
theorem persona_mirror (cfg : ServerConfig) (steps : List DaemonStep) :
    (runDaemon cfg steps).1.bridge.activePersona =
        (runDaemon cfg steps).1.machine.data.activeAgentContext ∧
      ∀ snap ∈ (runDaemon cfg steps).2,
        snap.osControlState.activePersona = snap.state.activeAgentContext := by
  have h := daemon_run_inv cfg steps (DaemonState.initial, []) daemonInv_initial (by simp)
  exact ⟨h.1.2.2, h.2⟩

/-- C1: whenever a run of the daemon ends with a disconnect that leaves the
client registry empty, the machine phase after that disconnect handler is
`IDLE` — the dead-man switch synthesizes `CLUTCH_RELEASE` when the clutch
was engaged, and the lockstep invariant makes an unengaged clutch imply
`IDLE` already. -/
theorem deadman_empty_registry_idle (cfg : ServerConfig) (steps : List DaemonStep) (id : ℕ)
    (h : (runDaemon cfg (steps ++ [DaemonStep.close id])).1.clients = ∅) :
    (runDaemon cfg (steps ++ [DaemonStep.close id])).1.machine.stateValue = .IDLE := by
  have hinv := daemonInv_run cfg steps
  have hfold : (runDaemon cfg (steps ++ [DaemonStep.close id])).1 =
      onClose (runDaemon cfg steps).1 id := by
    unfold runDaemon
    rw [List.foldl_append]
    rfl
  rw [hfold] at h ⊢
  obtain ⟨hp, ⟨hv, hc⟩, hmirror⟩ := hinv
  simp only [onClose] at h ⊢
  split at h
  case isTrue hg =>
      rw [if_pos hg]
      have hne : (runDaemon cfg steps).1.machine.stateValue ≠ .IDLE := hc.mp hg.2
      rcases send_release_cases (runDaemon cfg steps).1.machine with hrel | ⟨h1, _⟩
      · exact hrel
      · exact absurd h1 hne
  case isFalse hg =>
      rw [if_neg hg]
      have hempty : (runDaemon cfg steps).1.clients.erase id = ∅ := h
      have hnc : ¬((runDaemon cfg steps).1.machine.data.isClutchEngaged = true) := by
        intro hcl
        exact hg ⟨hempty, hcl⟩
      by_contra hne
      exact hnc (hc.mpr hne)

/-- Witness for C1: one plugin client connects, engages the clutch, then
disconnects; the registry is empty and the machine is back to `IDLE`. -/
theorem deadman_empty_registry_idle_witness :
    (runDaemon { configuredToken := Option.none }
        ([DaemonStep.connect 0 "plugin" Option.none,
          DaemonStep.hw
            { timestamp := 1, deviceId := .MX_MASTER_4, componentId := .ACTIONS_RING,
              eventType := .PRESS, value := Option.none }] ++
          [DaemonStep.close 0])).1.clients = ∅ ∧
      (runDaemon { configuredToken := Option.none }
          ([DaemonStep.connect 0 "plugin" Option.none,
            DaemonStep.hw
              { timestamp := 1, deviceId := .MX_MASTER_4, componentId := .ACTIONS_RING,
                eventType := .PRESS, value := Option.none }] ++
            [DaemonStep.close 0])).1.machine.stateValue = .IDLE :=
  ⟨by decide,
    deadman_empty_registry_idle { configuredToken := Option.none }
      [DaemonStep.connect 0 "plugin" Option.none,
        DaemonStep.hw
          { timestamp := 1, deviceId := .MX_MASTER_4, componentId := .ACTIONS_RING,
            eventType := .PRESS, value := Option.none }] 0 (by decide)⟩

/-- C4 counterexample: with the voice-pipeline `engage()` call rejecting, a
clutch-engage hardware event ends in a propagated failure and the snapshot
broadcast never fires — the adapter failure does block the broadcast. -/
theorem adapter_failure_blocks_broadcast_cex :
    (processHardwareEvent
        { voiceEngage := true, voiceRelease := false, bridgeEngage := false,
          bridgeRelease := false } DaemonState.initial
        { timestamp := 1, deviceId := .MX_MASTER_4, componentId := .ACTIONS_RING,
          eventType := .PRESS, value := Option.none }).failed = true ∧
      (processHardwareEvent
          { voiceEngage := true, voiceRelease := false, bridgeEngage := false,
            bridgeRelease := false } DaemonState.initial
          { timestamp := 1, deviceId := .MX_MASTER_4, componentId := .ACTIONS_RING,
            eventType := .PRESS, value := Option.none }).snapshot = Option.none :=
  ⟨rfl, rfl⟩

/-- C4 amended: `processHardwareEvent` has no try/catch around the awaited
adapter calls, so an adapter rejection aborts the function before the
broadcast (a failed run never emits a snapshot) and propagates to the
per-connection queue's catch; only when every adapter call resolves does the
broadcast fire, and then exactly for mapped events, with the payload built
from the post-transition state. -/
theorem adapter_failure_aborts_broadcast (f : AdapterFaults) (s : DaemonState)
    (e : LogiHardwareEvent) (hts : 0 < e.timestamp) :
    ((processHardwareEvent f s e).failed = true →
        (processHardwareEvent f s e).snapshot = Option.none) ∧
      (processHardwareEvent AdapterFaults.none s e).failed = false ∧
      ((processHardwareEvent AdapterFaults.none s e).snapshot.isSome ↔
        (mapHardwareEventToSynapseType e).isSome) ∧
      ∀ snap, (processHardwareEvent f s e).snapshot = some snap →
        snap = mkSnapshot (processHardwareEvent f s e).state :=
  ⟨(processHw_snapOk f s e).2, (processHw_nofail s e hts).1,
    (processHw_nofail s e hts).2, (processHw_snapOk f s e).1⟩

/-- Witness for C4 amended: a compute-dial event processed with the mock
adapters does not fail. -/
theorem adapter_failure_aborts_broadcast_witness :
    (0 : ℤ) < 5 ∧
      (processHardwareEvent AdapterFaults.none DaemonState.initial
        { timestamp := 5, deviceId := .MX_CREATIVE_CONSOLE, componentId := .DIAL_A,
          eventType := .ROTATE, value := some (Sum.inl 2) }).failed = false :=
  ⟨by decide,
    (adapter_failure_aborts_broadcast AdapterFaults.none DaemonState.initial
        { timestamp := 5, deviceId := .MX_CREATIVE_CONSOLE, componentId := .DIAL_A,
          eventType := .ROTATE, value := some (Sum.inl 2) } (by decide)).2.1⟩

/-- C6: with a controller secret configured, a `role=plugin` connection
whose token is missing or different is rejected: it is sent the error and
closed without being registered (so it can never receive a broadcast), the
whole daemon state — clients, senders, machine, mixer, voice, bridge — is
exactly what it was before the attempt, and a connection that never got a
message handler never reaches `processHardwareEvent`. -/
theorem unauthorized_controller_rejected (cfg : ServerConfig) (s : DaemonState) (id : ℕ)
    (role : String) (token : Option String) (hcfg : cfg.configuredToken.isSome = true)
    (hrole : role = "plugin") (htok : token ≠ cfg.configuredToken) :
    (onConnect cfg s id role token).state = s ∧
      (onConnect cfg s id role token).registered = false ∧
      (onConnect cfg s id role token).errorSent = true ∧
      (onConnect cfg s id role token).sentSnapshots = [] ∧
      ∀ e, id ∉ s.senders → onMessage s id e = (s, Option.none) := by
  have hcond : role = "plugin" ∧ cfg.configuredToken.isSome = true ∧
      ¬(role = "plugin" ∧
        (¬cfg.configuredToken.isSome = true ∨ token = cfg.configuredToken)) := by
    refine ⟨hrole, hcfg, ?_⟩
    rintro ⟨-, hno | heq⟩
    · exact hno hcfg
    · exact htok heq
  simp only [onConnect]
  rw [if_pos hcond]
  refine ⟨rfl, rfl, rfl, rfl, ?_⟩
  intro e hid
  unfold onMessage
  rw [if_neg hid]

/-- Witness for C6: wrong token against a configured secret on the initial
daemon state. -/
theorem unauthorized_controller_rejected_witness :
    (onConnect { configuredToken := some "s3cret" } DaemonState.initial 7 "plugin"
        (some "wrong")).state = DaemonState.initial ∧
      (onConnect { configuredToken := some "s3cret" } DaemonState.initial 7 "plugin"
          (some "wrong")).registered = false ∧
      (onConnect { configuredToken := some "s3cret" } DaemonState.initial 7 "plugin"
          (some "wrong")).errorSent = true :=
  ⟨(unauthorized_controller_rejected { configuredToken := some "s3cret" }
      DaemonState.initial 7 "plugin" (some "wrong") rfl rfl (by decide)).1,
    (unauthorized_controller_rejected { configuredToken := some "s3cret" }
      DaemonState.initial 7 "plugin" (some "wrong") rfl rfl (by decide)).2.1,
    (unauthorized_controller_rejected { configuredToken := some "s3cret" }
      DaemonState.initial 7 "plugin" (some "wrong") rfl rfl (by decide)).2.2.1⟩

/-- Witness for C3 at the spec's example sequence engage→voice-ready. -/
theorem phase_voice_lockstep_witness :
    (SynapseMachine.initial.run
        [.CLUTCH_ENGAGE (some .NAVIGATOR), .VOICE_READY]).data.voicePipelineStatus =
        voiceStatusOfPhase
          (SynapseMachine.initial.run
            [.CLUTCH_ENGAGE (some .NAVIGATOR), .VOICE_READY]).stateValue ∧
      ((SynapseMachine.initial.run
          [.CLUTCH_ENGAGE (some .NAVIGATOR), .VOICE_READY]).data.isClutchEngaged = true ↔
        (SynapseMachine.initial.run
          [.CLUTCH_ENGAGE (some .NAVIGATOR), .VOICE_READY]).stateValue ≠ .IDLE) :=
  phase_voice_lockstep [.CLUTCH_ENGAGE (some .NAVIGATOR), .VOICE_READY]

/-- Witness for C8 at a concrete run: connect a plugin, switch to persona 2
via the keypad. -/
theorem persona_mirror_witness :
    (runDaemon { configuredToken := Option.none }
        [DaemonStep.connect 0 "plugin" Option.none,
          DaemonStep.hw
            { timestamp := 3, deviceId := .MX_CREATIVE_CONSOLE, componentId := .KEYPAD,
              eventType := .PRESS, value := some (Sum.inl 2) }]).1.bridge.activePersona =
      (runDaemon { configuredToken := Option.none }
          [DaemonStep.connect 0 "plugin" Option.none,
            DaemonStep.hw
              { timestamp := 3, deviceId := .MX_CREATIVE_CONSOLE, componentId := .KEYPAD,
                eventType := .PRESS, value := some (Sum.inl 2) }]).1.machine.data.activeAgentContext :=
  (persona_mirror { configuredToken := Option.none }
      [DaemonStep.connect 0 "plugin" Option.none,
        DaemonStep.hw
          { timestamp := 3, deviceId := .MX_CREATIVE_CONSOLE, componentId := .KEYPAD,
            eventType := .PRESS, value := some (Sum.inl 2) }]).1

/-- Witness for C9 amended at a concrete dial position 0.8. -/
theorem primary_model_tracks_weight_witness :
    (MockKernelMixer.setComputeMix MockKernelMixer.initial (8/10)).primaryModel =
        .CLOUD_CLAUDE_3_5_SONNET ↔
      1/2 ≤ (MockKernelMixer.setComputeMix MockKernelMixer.initial (8/10)).computeMixWeight :=
  (primary_model_tracks_weight MockKernelMixer.initial (8/10)).2
